import Mathlib

/-
Shallow embedding of the crypto-analyzer repository (src/market_analyzer.py and
src/app.py) and proofs about its signal-aggregation engine.

Modelling conventions:
* Prices, volumes and indicator values are rationals (`ℚ`); a pandas `NaN`
  cell is `none : Option ℚ`, and every comparison against a `none` value is
  `false`, exactly as float comparisons against NaN are false in Python.
* The external market-data provider (`pyupbit`) is an oracle: a function from
  the attempt number to the outcome of that attempt (`FetchOutcome`), so the
  bounded-retry loops can be stated and proved for every provider behaviour.
* The external `ta` indicator library and the square root inside the pandas
  rolling standard deviation are likewise oracle parameters (`TaLib`): the
  repository only calls them, so the embedding treats each as an arbitrary
  column-producing function.  The rolling mean / max / min / pct_change used
  by the repository are pure pandas arithmetic and are embedded concretely.
* Python dicts keep insertion order, so a dict is an association list whose
  keys are unique; `del d[k]` removes the key, upsert keeps the position.
-/

namespace CryptoAnalyzer

/-- Outcome of one attempt against the external provider: the call can raise
an exception, or return a value that may itself be absent (`None`). -/
inductive FetchOutcome (α : Type) where
  | exn : FetchOutcome α
  | val : Option α → FetchOutcome α
deriving DecidableEq

/-- Result of the bounded-retry loop: the value returned and how many attempts
were consumed. -/
structure RetryResult (α : Type) where
  value : Option α
  attempts : Nat
deriving DecidableEq

/-- Embedding of the `for _ in range(3)` retry loop shared by the fetch call
sites: `fuel` attempts remain, `i` is the index of the next attempt, `acc` is
the current value of the Python local.  On an exception the local keeps its
previous value; on a returned value the loop breaks exactly when `good` holds
for it, mirroring `if price is not None: break` and
`if df is not None and not df.empty: break`. -/
def retryLoop (provider : Nat → FetchOutcome α) (good : Option α → Bool) :
    Nat → Nat → Option α → RetryResult α
  | 0, _, acc => ⟨acc, 0⟩
  | fuel + 1, i, acc =>
    match provider i with
    | .exn =>
        let r := retryLoop provider good fuel (i + 1) acc
        ⟨r.value, r.attempts + 1⟩
    | .val v =>
        if good v then ⟨v, 1⟩
        else
          let r := retryLoop provider good fuel (i + 1) v
          ⟨r.value, r.attempts + 1⟩

/-- Three-attempt retry, starting from a `None` local, as in both fetch
helpers of `market_analyzer.py`. -/
def retryFetch (provider : Nat → FetchOutcome α) (good : Option α → Bool) :
    RetryResult α :=
  retryLoop provider good 3 0 none

/-- Break condition of the current-price retry: `if price is not None`. -/
def goodPrice (v : Option ℚ) : Bool := v.isSome

/-- One OHLCV candle row. -/
structure Candle where
  open_ : ℚ
  high : ℚ
  low : ℚ
  close : ℚ
  volume : ℚ
deriving DecidableEq, Inhabited

/-- Break condition of the OHLCV retry: `if df is not None and not df.empty`. -/
def goodDf (v : Option (List Candle)) : Bool :=
  match v with
  | some l => !l.isEmpty
  | none => false

/-- Embedding of `CryptoAnalyzer.get_current_price` (market_analyzer.py):
retry up to three times, return the final value of the `price` local. -/
def get_current_price (provider : Nat → FetchOutcome ℚ) : Option ℚ :=
  (retryFetch provider goodPrice).value

/-- The OHLCV fetch inside `CryptoAnalyzer.calculate_indicators`
(market_analyzer.py): retry up to three times, yielding the final value of
the `df` local (possibly an empty frame). -/
def fetch_ohlcv (provider : Nat → FetchOutcome (List Candle)) :
    Option (List Candle) :=
  (retryFetch provider goodDf).value

/-- Pandas `series.rolling(window=w).f()`: position `i` carries a value
exactly when the window of `w` cells ending at `i` exists and is NaN-free,
in which case `f` of those `w` values is taken. -/
def rollingApply (w : Nat) (f : List ℚ → ℚ) (xs : List (Option ℚ)) :
    List (Option ℚ) :=
  (List.range xs.length).map fun i =>
    let win := (((xs.take (i + 1)).drop (i + 1 - w)).filterMap id)
    if i + 1 < w then none
    else if win.length = w then some (f win) else none

/-- Arithmetic mean of a window (total: the empty window maps to zero, a case
`rollingApply` never produces for positive `w`). -/
def meanQ (l : List ℚ) : ℚ := l.sum / l.length

/-- Maximum of a window (total, seeded with the head). -/
def maxQ (l : List ℚ) : ℚ := l.foldl max (l.headD 0)

/-- Minimum of a window (total, seeded with the head). -/
def minQ (l : List ℚ) : ℚ := l.foldl min (l.headD 0)

/-- Pandas `series.pct_change(periods=p)`: relative change against the value
`p` positions earlier, NaN when either endpoint is missing. -/
def pctChange (p : Nat) (xs : List (Option ℚ)) : List (Option ℚ) :=
  (List.range xs.length).map fun i =>
    if i < p then none
    else
      match (xs[i - p]?).join, (xs[i]?).join with
      | some a, some b => some ((b - a) / a)
      | _, _ => none

/-- NaN-propagating pointwise combination of two pandas columns. -/
def zipCol (f : ℚ → ℚ → ℚ) (a b : List (Option ℚ)) : List (Option ℚ) :=
  List.zipWith
    (fun x y =>
      match x, y with
      | some u, some v => some (f u v)
      | _, _ => none) a b

/-- Oracle for the external `ta` indicator library and for the pandas rolling
standard deviation (whose square root leaves `ℚ`): each field maps the input
candle series to the derived column the repository assigns, and pandas
column assignment aligns rows by index. -/
structure TaLib where
  rsi : List Candle → List (Option ℚ)
  macd : List Candle → List (Option ℚ)
  macd_signal : List Candle → List (Option ℚ)
  macd_diff : List Candle → List (Option ℚ)
  stoch : List Candle → List (Option ℚ)
  stoch_signal : List Candle → List (Option ℚ)
  adx : List Candle → List (Option ℚ)
  adx_pos : List Candle → List (Option ℚ)
  adx_neg : List Candle → List (Option ℚ)
  on_balance_volume : List Candle → List (Option ℚ)
  force_index : List Candle → List (Option ℚ)
  ichimoku_conversion : List Candle → List (Option ℚ)
  ichimoku_base : List Candle → List (Option ℚ)
  ichimoku_a : List Candle → List (Option ℚ)
  ichimoku_b : List Candle → List (Option ℚ)
  rolling_std : Nat → List (Option ℚ) → List (Option ℚ)

/-- One row of the indicator-augmented frame built by
`CryptoAnalyzer.calculate_indicators` (market_analyzer.py): the raw candle
plus every derived column, each cell possibly NaN. -/
structure AugRow where
  open_ : ℚ
  high : ℚ
  low : ℚ
  close : ℚ
  volume : ℚ
  RSI : Option ℚ
  MACD : Option ℚ
  MACD_Signal : Option ℚ
  MACD_Hist : Option ℚ
  Stoch_K : Option ℚ
  Stoch_D : Option ℚ
  ADX : Option ℚ
  DI_plus : Option ℚ
  DI_minus : Option ℚ
  OBV : Option ℚ
  Force_Index : Option ℚ
  Ichimoku_Conversion : Option ℚ
  Ichimoku_Base : Option ℚ
  Ichimoku_SpanA : Option ℚ
  Ichimoku_SpanB : Option ℚ
  MA5 : Option ℚ
  MA20 : Option ℚ
  MA60 : Option ℚ
  MA120 : Option ℚ
  BB_Middle : Option ℚ
  BB_Upper : Option ℚ
  BB_Lower : Option ℚ
  ROC : Option ℚ
  Upper_Channel : Option ℚ
  Lower_Channel : Option ℚ
deriving DecidableEq, Inhabited

/-- Row-indexed lookup into a pandas column: cell `i`, NaN when the column
is shorter. -/
@[noinline]
def cell (col : List (Option ℚ)) (i : Nat) : Option ℚ :=
  (col[i]?).join

/-- Column assignments of `calculate_indicators` (market_analyzer.py lines
132-187): `ta`-library columns come from the oracle, the moving averages,
Bollinger band arms, ROC and price channel are concrete pandas arithmetic.
Row `i` of the output pairs candle `i` with cell `i` of every column. -/
def augment (ta : TaLib) (df : List Candle) : List AugRow :=
  let closes := df.map fun c => some c.close
  let highs := df.map fun c => some c.high
  let lows := df.map fun c => some c.low
  let rsiCol := ta.rsi df
  let macdCol := ta.macd df
  let macdSignalCol := ta.macd_signal df
  let macdHistCol := ta.macd_diff df
  let stochKCol := ta.stoch df
  let stochDCol := ta.stoch_signal df
  let adxCol := ta.adx df
  let diPlusCol := ta.adx_pos df
  let diMinusCol := ta.adx_neg df
  let obvCol := ta.on_balance_volume df
  let fiCol := ta.force_index df
  let convCol := ta.ichimoku_conversion df
  let baseCol := ta.ichimoku_base df
  let spanACol := ta.ichimoku_a df
  let spanBCol := ta.ichimoku_b df
  let ma5Col := rollingApply 5 meanQ closes
  let ma20Col := rollingApply 20 meanQ closes
  let ma60Col := rollingApply 60 meanQ closes
  let ma120Col := rollingApply 120 meanQ closes
  let bbMiddle := rollingApply 20 meanQ closes
  let bbStd := ta.rolling_std 20 closes
  let bbUpper := zipCol (fun m s => m + s * 2) bbMiddle bbStd
  let bbLower := zipCol (fun m s => m - s * 2) bbMiddle bbStd
  let rocCol := (pctChange 10 closes).map (Option.map (· * 100))
  let upChCol := rollingApply 20 maxQ highs
  let loChCol := rollingApply 20 minQ lows
  (List.range df.length).map fun i =>
    let c := df.getD i default
    { open_ := c.open_
      high := c.high
      low := c.low
      close := c.close
      volume := c.volume
      RSI := cell rsiCol i
      MACD := cell macdCol i
      MACD_Signal := cell macdSignalCol i
      MACD_Hist := cell macdHistCol i
      Stoch_K := cell stochKCol i
      Stoch_D := cell stochDCol i
      ADX := cell adxCol i
      DI_plus := cell diPlusCol i
      DI_minus := cell diMinusCol i
      OBV := cell obvCol i
      Force_Index := cell fiCol i
      Ichimoku_Conversion := cell convCol i
      Ichimoku_Base := cell baseCol i
      Ichimoku_SpanA := cell spanACol i
      Ichimoku_SpanB := cell spanBCol i
      MA5 := cell ma5Col i
      MA20 := cell ma20Col i
      MA60 := cell ma60Col i
      MA120 := cell ma120Col i
      BB_Middle := cell bbMiddle i
      BB_Upper := cell bbUpper i
      BB_Lower := cell bbLower i
      ROC := cell rocCol i
      Upper_Channel := cell upChCol i
      Lower_Channel := cell loChCol i }

/-- Tail of `CryptoAnalyzer.calculate_indicators` (market_analyzer.py) after
the retry loop: `if df is None or df.empty: return None`, otherwise assign
every indicator column and return the frame. -/
def calculate_indicators_post (ta : TaLib) (df : Option (List Candle)) :
    Option (List AugRow) :=
  match df with
  | none => none
  | some s => if s.isEmpty then none else some (augment ta s)

/-- Embedding of `CryptoAnalyzer.calculate_indicators` (market_analyzer.py):
three-attempt OHLCV fetch, then the empty-frame guard, then the indicator
columns. -/
def calculate_indicators (ta : TaLib) (provider : Nat → FetchOutcome (List Candle)) :
    Option (List AugRow) :=
  calculate_indicators_post ta (fetch_ohlcv provider)

/-- Python comparison `a > b` on possibly-NaN cells: false when either side
is NaN. -/
def ogt : Option ℚ → Option ℚ → Bool
  | some a, some b => decide (b < a)
  | _, _ => false

/-- Python comparison `a < b` on possibly-NaN cells. -/
def olt (a b : Option ℚ) : Bool := ogt b a

/-- Python comparison `a >= b` on possibly-NaN cells. -/
def oge : Option ℚ → Option ℚ → Bool
  | some a, some b => decide (b ≤ a)
  | _, _ => false

/-- Python comparison `a <= b` on possibly-NaN cells. -/
def ole (a b : Option ℚ) : Bool := oge b a

/-- Everything the rule block of `analyze_signals` (market_analyzer.py lines
234-317) reads: the latest indicator row, `df['MACD_Hist'].iloc[-2]`, the
last cell of the 20-period rolling mean of the OBV column, and the current
price. -/
structure ScoreInput where
  latest : AugRow
  prevHist : Option ℚ
  obv_ma_last : Option ℚ
  current_price : ℚ
deriving DecidableEq

/-- Rule 1 (RSI), market_analyzer.py lines 234-239. -/
def stepRSI (inp : ScoreInput) (acc : ℤ × List String) : ℤ × List String :=
  if olt inp.latest.RSI (some 30) then
    (acc.1 + 1, acc.2 ++ [" RSI 과매도 구간 (매수 시그널)"])
  else if ogt inp.latest.RSI (some 70) then
    (acc.1 - 1, acc.2 ++ [" RSI 과매수 구간 (매도 시그널)"])
  else acc

/-- Rule 2 (MACD with trend delta against the previous row),
market_analyzer.py lines 241-252. -/
def stepMACD (inp : ScoreInput) (acc : ℤ × List String) : ℤ × List String :=
  if ogt inp.latest.MACD inp.latest.MACD_Signal then
    if ogt inp.latest.MACD_Hist inp.prevHist then
      (acc.1 + 1, acc.2 ++ [" MACD 상승 추세 강화"])
    else (acc.1, acc.2 ++ [" MACD 상승 추세"])
  else
    if olt inp.latest.MACD_Hist inp.prevHist then
      (acc.1 - 1, acc.2 ++ [" MACD 하락 추세 강화"])
    else (acc.1, acc.2 ++ [" MACD 하락 추세"])

/-- Rule 3 (moving-average ordering), market_analyzer.py lines 254-259; the
Python chained comparison `a > b > c` is `a > b and b > c`. -/
def stepMA (inp : ScoreInput) (acc : ℤ × List String) : ℤ × List String :=
  if ogt inp.latest.MA5 inp.latest.MA20 && ogt inp.latest.MA20 inp.latest.MA60 then
    (acc.1 + 1, acc.2 ++ [" 이동평균선 황금 크로스"])
  else if olt inp.latest.MA5 inp.latest.MA20 && olt inp.latest.MA20 inp.latest.MA60 then
    (acc.1 - 1, acc.2 ++ [" 이동평균선 데드 크로스"])
  else acc

/-- Rule 4 (Bollinger bands against the current price), market_analyzer.py
lines 261-266. -/
def stepBB (inp : ScoreInput) (acc : ℤ × List String) : ℤ × List String :=
  if olt (some inp.current_price) inp.latest.BB_Lower then
    (acc.1 + 1, acc.2 ++ [" 볼린저 밴드 하단 돌파 (매수 시그널)"])
  else if ogt (some inp.current_price) inp.latest.BB_Upper then
    (acc.1 - 1, acc.2 ++ [" 볼린저 밴드 상단 돌파 (매도 시그널)"])
  else acc

/-- Rule 5 (stochastic oscillator), market_analyzer.py lines 269-274. -/
def stepStoch (inp : ScoreInput) (acc : ℤ × List String) : ℤ × List String :=
  if olt inp.latest.Stoch_K (some 20) && ogt inp.latest.Stoch_K inp.latest.Stoch_D then
    (acc.1 + 1, acc.2 ++ [" 스토캐스틱 과매도 반등 시그널"])
  else if ogt inp.latest.Stoch_K (some 80) && olt inp.latest.Stoch_K inp.latest.Stoch_D then
    (acc.1 - 1, acc.2 ++ [" 스토캐스틱 과매수 하락 시그널"])
  else acc

/-- Rule 6 (DMI/ADX), market_analyzer.py lines 277-282. -/
def stepDMI (inp : ScoreInput) (acc : ℤ × List String) : ℤ × List String :=
  if ogt inp.latest.DI_plus inp.latest.DI_minus && ogt inp.latest.ADX (some 25) then
    (acc.1 + 1, acc.2 ++ [" DMI 강력 상승 트렌드"])
  else if ogt inp.latest.DI_minus inp.latest.DI_plus && ogt inp.latest.ADX (some 25) then
    (acc.1 - 1, acc.2 ++ [" DMI 강력 하락 트렌드"])
  else acc

/-- Rule 7 (OBV against its 20-period rolling mean), market_analyzer.py lines
285-291. -/
def stepOBV (inp : ScoreInput) (acc : ℤ × List String) : ℤ × List String :=
  if ogt inp.latest.OBV inp.obv_ma_last then
    (acc.1 + 1, acc.2 ++ [" OBV 상승 트렌드 (매수세 우위)"])
  else if olt inp.latest.OBV inp.obv_ma_last then
    (acc.1 - 1, acc.2 ++ [" OBV 하락 트렌드 (매도세 우위)"])
  else acc

/-- Rule 8 (Ichimoku spans against the latest close), market_analyzer.py
lines 294-301; the code compares `latest['close']`, not `current_price`. -/
def stepIchimoku (inp : ScoreInput) (acc : ℤ × List String) : ℤ × List String :=
  if ogt (some inp.latest.close) inp.latest.Ichimoku_SpanA &&
      ogt (some inp.latest.close) inp.latest.Ichimoku_SpanB then
    (acc.1 + 1, acc.2 ++ [" 일목균형표 상승 시그널"])
  else if olt (some inp.latest.close) inp.latest.Ichimoku_SpanA &&
      olt (some inp.latest.close) inp.latest.Ichimoku_SpanB then
    (acc.1 - 1, acc.2 ++ [" 일목균형표 하락 시그널"])
  else acc

/-- Rule 9 (rate of change), market_analyzer.py lines 304-309. -/
def stepROC (inp : ScoreInput) (acc : ℤ × List String) : ℤ × List String :=
  if ogt inp.latest.ROC (some 5) then
    (acc.1 + 1, acc.2 ++ [" ROC 강력 상승 모멘텀"])
  else if olt inp.latest.ROC (some (-5)) then
    (acc.1 - 1, acc.2 ++ [" ROC 강력 하락 모멘텀"])
  else acc

/-- Rule 10 (price channel, non-strict comparisons), market_analyzer.py lines
312-317. -/
def stepChannel (inp : ScoreInput) (acc : ℤ × List String) : ℤ × List String :=
  if oge (some inp.current_price) inp.latest.Upper_Channel then
    (acc.1 + 1, acc.2 ++ [" 상단 채널 돌파 (상승 추세 강화)"])
  else if ole (some inp.current_price) inp.latest.Lower_Channel then
    (acc.1 - 1, acc.2 ++ [" 하단 채널 돌파 (하락 추세 강화)"])
  else acc

/-- The full ordered rule block of `analyze_signals` (market_analyzer.py),
run on the initial accumulator `(0, [])`. -/
def signalSteps (inp : ScoreInput) (acc : ℤ × List String) : ℤ × List String :=
  stepChannel inp (stepROC inp (stepIchimoku inp (stepOBV inp (stepDMI inp
    (stepStoch inp (stepBB inp (stepMA inp (stepMACD inp (stepRSI inp acc)))))))))

/-- Contribution of rule 1 alone (RSI). -/
def rsiContrib (inp : ScoreInput) : ℤ :=
  if olt inp.latest.RSI (some 30) then 1
  else if ogt inp.latest.RSI (some 70) then -1
  else 0

/-- Contribution of rule 2 alone (MACD trend delta). -/
def macdContrib (inp : ScoreInput) : ℤ :=
  if ogt inp.latest.MACD inp.latest.MACD_Signal then
    if ogt inp.latest.MACD_Hist inp.prevHist then 1 else 0
  else
    if olt inp.latest.MACD_Hist inp.prevHist then -1 else 0

/-- Contribution of rule 3 alone (moving-average ordering). -/
def maContrib (inp : ScoreInput) : ℤ :=
  if ogt inp.latest.MA5 inp.latest.MA20 && ogt inp.latest.MA20 inp.latest.MA60 then 1
  else if olt inp.latest.MA5 inp.latest.MA20 && olt inp.latest.MA20 inp.latest.MA60 then -1
  else 0

/-- Contribution of rule 4 alone (Bollinger bands). -/
def bbContrib (inp : ScoreInput) : ℤ :=
  if olt (some inp.current_price) inp.latest.BB_Lower then 1
  else if ogt (some inp.current_price) inp.latest.BB_Upper then -1
  else 0

/-- Contribution of rule 5 alone (stochastic oscillator). -/
def stochContrib (inp : ScoreInput) : ℤ :=
  if olt inp.latest.Stoch_K (some 20) && ogt inp.latest.Stoch_K inp.latest.Stoch_D then 1
  else if ogt inp.latest.Stoch_K (some 80) && olt inp.latest.Stoch_K inp.latest.Stoch_D then -1
  else 0

/-- Contribution of rule 6 alone (DMI/ADX). -/
def dmiContrib (inp : ScoreInput) : ℤ :=
  if ogt inp.latest.DI_plus inp.latest.DI_minus && ogt inp.latest.ADX (some 25) then 1
  else if ogt inp.latest.DI_minus inp.latest.DI_plus && ogt inp.latest.ADX (some 25) then -1
  else 0

/-- Contribution of rule 7 alone (OBV against its rolling mean). -/
def obvContrib (inp : ScoreInput) : ℤ :=
  if ogt inp.latest.OBV inp.obv_ma_last then 1
  else if olt inp.latest.OBV inp.obv_ma_last then -1
  else 0

/-- Contribution of rule 8 alone (Ichimoku spans). -/
def ichimokuContrib (inp : ScoreInput) : ℤ :=
  if ogt (some inp.latest.close) inp.latest.Ichimoku_SpanA &&
      ogt (some inp.latest.close) inp.latest.Ichimoku_SpanB then 1
  else if olt (some inp.latest.close) inp.latest.Ichimoku_SpanA &&
      olt (some inp.latest.close) inp.latest.Ichimoku_SpanB then -1
  else 0

/-- Contribution of rule 9 alone (rate of change). -/
def rocContrib (inp : ScoreInput) : ℤ :=
  if ogt inp.latest.ROC (some 5) then 1
  else if olt inp.latest.ROC (some (-5)) then -1
  else 0

/-- Contribution of rule 10 alone (price channel). -/
def channelContrib (inp : ScoreInput) : ℤ :=
  if oge (some inp.current_price) inp.latest.Upper_Channel then 1
  else if ole (some inp.current_price) inp.latest.Lower_Channel then -1
  else 0

/-- Does one registry entry `(target_price, alert_type)` fire at
`current_price`?  Mirrors the two strict comparisons of
`check_price_alerts` (market_analyzer.py lines 50 and 54). -/
def alertFires (current_price : ℚ) (e : ℚ × String) : Bool :=
  if e.2 == "above" && decide (e.1 < current_price) then true
  else if e.2 == "below" && decide (current_price < e.1) then true
  else false

/-- The iteration over `self.price_alerts.items()` in `check_price_alerts`:
collects, in insertion order, the entries whose branch fired (the code prints
each and appends its target to `alerts_to_remove`). -/
def alertsFired (current_price : ℚ) : List (ℚ × String) → List (ℚ × String)
  | [] => []
  | e :: rest =>
    if alertFires current_price e then e :: alertsFired current_price rest
    else alertsFired current_price rest

/-- Python `del d[k]` on the insertion-ordered registry. -/
def delKey (alerts : List (ℚ × String)) (k : ℚ) : List (ℚ × String) :=
  alerts.filter fun e => !(e.1 == k)

/-- Embedding of `CryptoAnalyzer.check_price_alerts` (market_analyzer.py
lines 46-60): first pass collects the fired entries, second pass deletes
their targets from the registry.  Returns (fired entries, new registry). -/
def check_price_alerts (alerts : List (ℚ × String)) (current_price : ℚ) :
    List (ℚ × String) × List (ℚ × String) :=
  let fired := alertsFired current_price alerts
  (fired, (fired.map Prod.fst).foldl delKey alerts)

/-- Embedding of `CryptoAnalyzer.set_price_alert` (market_analyzer.py lines
41-44): dict upsert, overwriting in place or appending. -/
def set_price_alert (alerts : List (ℚ × String)) (target_price : ℚ)
    (alert_type : String) : List (ℚ × String) :=
  if alerts.any (fun e => e.1 == target_price) then
    alerts.map fun e => if e.1 == target_price then (target_price, alert_type) else e
  else alerts ++ [(target_price, alert_type)]

/-- Observable outcome of one `check_volume_surge` call: whether the surge
branch fired, the ratio `volume_change` if the division was executed, the
value of `self.last_volume` at the division site when the division was
executed (recording its divisor), and the new `self.last_volume`. -/
structure SurgeResult where
  surged : Bool
  volume_change : Option ℚ
  divisor : Option ℚ
  last_volume : Option ℚ
deriving DecidableEq

/-- Embedding of `CryptoAnalyzer.check_volume_surge` (market_analyzer.py
lines 62-74): guard on an absent or <2-row frame, then the unguarded
division `current_volume / self.last_volume` whenever a previous volume is
stored, the strict threshold comparison, and the unconditional store of the
latest volume.  The `ℚ` division is the code's float division read over
exact arithmetic (its value at divisor 0 is junk; the `divisor` field
records that the division was executed there). -/
def check_volume_surge (last_volume : Option ℚ) (threshold : ℚ)
    (df : Option (List AugRow)) : SurgeResult :=
  match df with
  | none => ⟨false, none, none, last_volume⟩
  | some rows =>
    if rows.length < 2 then ⟨false, none, none, last_volume⟩
    else
      let current_volume := ((rows.getLast?).map AugRow.volume).getD 0
      match last_volume with
      | some prev =>
          let volume_change := current_volume / prev
          ⟨decide (threshold < volume_change), some volume_change, some prev,
            some current_volume⟩
      | none => ⟨false, none, none, some current_volume⟩

/-- Per-asset mutable state of a `CryptoAnalyzer` instance
(market_analyzer.py `__init__`): the alert registry, the previous cycle's
volume, and the surge threshold (2.0 in `__init__`). -/
structure AnalyzerState where
  price_alerts : List (ℚ × String)
  last_volume : Option ℚ
  volume_alert_threshold : ℚ
deriving DecidableEq

/-- The result dict built by `analyze_signals` (market_analyzer.py lines
217-232 and 319-320).  The dict has no `OBV_MA` key, which the embedding
records as a field that construction always leaves `none`; the reporting
path reads that key with default 0. -/
structure SignalResult where
  ticker : String
  current_price : ℚ
  signals : List String
  signal_strength : ℤ
  rsi : Option ℚ
  ma5 : Option ℚ
  ma20 : Option ℚ
  ma60 : Option ℚ
  Stoch_K : Option ℚ
  Stoch_D : Option ℚ
  ADX : Option ℚ
  DI_plus : Option ℚ
  DI_minus : Option ℚ
  OBV : Option ℚ
  OBV_MA : Option ℚ
deriving DecidableEq, Inhabited

/-- Embedding of `CryptoAnalyzer.analyze_signals` (market_analyzer.py lines
193-321): fetch the price and the indicator frame, bail out with no result
on an absent price, an absent frame or fewer than 60 rows, then run the
volume-surge and price-alert side effects and the ordered rule block.
Chart rendering is I/O and is out of scope.  Returns the optional result
dict and the updated per-asset state. -/
def analyze_signals (ta : TaLib) (priceProvider : Nat → FetchOutcome ℚ)
    (ohlcvProvider : Nat → FetchOutcome (List Candle)) (st : AnalyzerState)
    (ticker : String) : Option SignalResult × AnalyzerState :=
  match get_current_price priceProvider with
  | none => (none, st)
  | some current_price =>
    match calculate_indicators ta ohlcvProvider with
    | none => (none, st)
    | some df =>
      if df.length < 60 then (none, st)
      else
        let sr := check_volume_surge st.last_volume st.volume_alert_threshold (some df)
        let ca := check_price_alerts st.price_alerts current_price
        let st1 : AnalyzerState :=
          { price_alerts := ca.2
            last_volume := sr.last_volume
            volume_alert_threshold := st.volume_alert_threshold }
        let latest := (df.getLast?).getD default
        let prevHist := ((df[df.length - 2]?).map AugRow.MACD_Hist).join
        let obv_ma_last :=
          ((rollingApply 20 meanQ (df.map AugRow.OBV)).getLast?).join
        let inp : ScoreInput := ⟨latest, prevHist, obv_ma_last, current_price⟩
        let outcome := signalSteps inp (0, [])
        (some
          { ticker := ticker
            current_price := current_price
            signals := outcome.2
            signal_strength := outcome.1
            rsi := latest.RSI
            ma5 := latest.MA5
            ma20 := latest.MA20
            ma60 := latest.MA60
            Stoch_K := latest.Stoch_K
            Stoch_D := latest.Stoch_D
            ADX := latest.ADX
            DI_plus := latest.DI_plus
            DI_minus := latest.DI_minus
            OBV := latest.OBV
            OBV_MA := none }, st1)

/-- The OBV comparison of the reporting path, `print_analysis_result`
(market_analyzer.py line 454): `result['OBV'] > result.get('OBV_MA', 0)`. -/
def obvReportBullish (r : SignalResult) : Bool :=
  ogt r.OBV (some (r.OBV_MA.getD 0))

namespace App

/-- One row of the lighter indicator frame built by
`CryptoAnalyzer.calculate_indicators` in app.py (RSI, MACD line and signal,
MA5, MA20). -/
structure AugRow where
  open_ : ℚ
  high : ℚ
  low : ℚ
  close : ℚ
  volume : ℚ
  RSI : Option ℚ
  MACD : Option ℚ
  MACD_Signal : Option ℚ
  MA5 : Option ℚ
  MA20 : Option ℚ
deriving DecidableEq, Inhabited

/-- Embedding of app.py `get_current_price`: a single provider call whose
exception is caught and turned into `None`. -/
def get_current_price (outcome : FetchOutcome ℚ) : Option ℚ :=
  match outcome with
  | .exn => none
  | .val v => v

/-- Column assignments of app.py `calculate_indicators` lines 29-40. -/
def augment (ta : TaLib) (df : List Candle) : List AugRow :=
  let closes := df.map fun c => some c.close
  let rsiCol := ta.rsi df
  let macdCol := ta.macd df
  let macdSignalCol := ta.macd_signal df
  let ma5Col := rollingApply 5 meanQ closes
  let ma20Col := rollingApply 20 meanQ closes
  (List.range df.length).map fun i =>
    let c := df.getD i default
    { open_ := c.open_
      high := c.high
      low := c.low
      close := c.close
      volume := c.volume
      RSI := cell rsiCol i
      MACD := cell macdCol i
      MACD_Signal := cell macdSignalCol i
      MA5 := cell ma5Col i
      MA20 := cell ma20Col i }

/-- Embedding of app.py `CryptoAnalyzer.calculate_indicators` (lines 23-45):
one OHLCV call with no retry — an exception is caught and becomes `None` —
then the absent/empty guard and the column assignments. -/
def calculate_indicators (ta : TaLib) (outcome : FetchOutcome (List Candle)) :
    Option (List AugRow) :=
  match outcome with
  | .exn => none
  | .val none => none
  | .val (some s) => if s.isEmpty then none else some (augment ta s)

/-- What the rule block of app.py `analyze_signals` reads: the latest row. -/
structure ScoreInput where
  latest : AugRow
deriving DecidableEq

/-- App rule 1 (RSI, weight 2), app.py lines 61-66. -/
def stepRSI (inp : ScoreInput) (acc : ℤ × List String) : ℤ × List String :=
  if olt inp.latest.RSI (some 30) then
    (acc.1 + 2, acc.2 ++ ["💚 RSI 과매도 구간"])
  else if ogt inp.latest.RSI (some 70) then
    (acc.1 - 2, acc.2 ++ ["❌ RSI 과매수 구간"])
  else acc

/-- App rule 2 (MACD, both branches contribute), app.py lines 69-74. -/
def stepMACD (inp : ScoreInput) (acc : ℤ × List String) : ℤ × List String :=
  if ogt inp.latest.MACD inp.latest.MACD_Signal then
    (acc.1 + 1, acc.2 ++ ["💚 MACD 상승세"])
  else
    (acc.1 - 1, acc.2 ++ ["❌ MACD 하락세"])

/-- App rule 3 (moving averages, both branches contribute), app.py lines
77-82. -/
def stepMA (inp : ScoreInput) (acc : ℤ × List String) : ℤ × List String :=
  if ogt inp.latest.MA5 inp.latest.MA20 then
    (acc.1 + 1, acc.2 ++ ["💚 단기 상승세"])
  else
    (acc.1 - 1, acc.2 ++ ["❌ 단기 하락세"])

/-- The ordered three-rule block of app.py `analyze_signals`. -/
def signalSteps (inp : ScoreInput) (acc : ℤ × List String) : ℤ × List String :=
  stepMA inp (stepMACD inp (stepRSI inp acc))

/-- Contribution of the app RSI rule alone. -/
def rsiContrib (inp : ScoreInput) : ℤ :=
  if olt inp.latest.RSI (some 30) then 2
  else if ogt inp.latest.RSI (some 70) then -2
  else 0

/-- Contribution of the app MACD rule alone. -/
def macdContrib (inp : ScoreInput) : ℤ :=
  if ogt inp.latest.MACD inp.latest.MACD_Signal then 1 else -1

/-- Contribution of the app moving-average rule alone. -/
def maContrib (inp : ScoreInput) : ℤ :=
  if ogt inp.latest.MA5 inp.latest.MA20 then 1 else -1

/-- The result dict of app.py `analyze_signals` (lines 90-97). -/
structure SignalResult where
  ticker : String
  current_price : ℚ
  signals : List String
  signal_strength : ℤ
  df : List AugRow
  indicators : AugRow
deriving DecidableEq

/-- Embedding of app.py `CryptoAnalyzer.analyze_signals` (lines 47-97):
absent price or an absent/short frame (fewer than 20 rows) yields no result
with the state untouched; otherwise the three rules run and
`self.last_signal` is overwritten with the new score. -/
def analyze_signals (ta : TaLib) (priceOutcome : FetchOutcome ℚ)
    (ohlcvOutcome : FetchOutcome (List Candle)) (last_signal : ℤ)
    (ticker : String) : Option SignalResult × ℤ :=
  match get_current_price priceOutcome with
  | none => (none, last_signal)
  | some current_price =>
    match calculate_indicators ta ohlcvOutcome with
    | none => (none, last_signal)
    | some df =>
      if df.length < 20 then (none, last_signal)
      else
        let latest := (df.getLast?).getD default
        let outcome := signalSteps ⟨latest⟩ (0, [])
        (some
          { ticker := ticker
            current_price := current_price
            signals := outcome.2
            signal_strength := outcome.1
            df := df
            indicators := latest }, outcome.1)

end App

/-- The per-candidate value of the ranker: for each listed ticker whose
daily frame survives the three-attempt retry non-empty, `(ticker,
latest volume × latest close)`; failed candidates produce no pair at all
(market_analyzer.py lines 341-358). -/
def ranker_volume_data (tickers : List String)
    (daily : String → Nat → FetchOutcome (List Candle)) : List (String × ℚ) :=
  tickers.filterMap fun t =>
    match (retryFetch (daily t) goodDf).value with
    | some l =>
        if l.isEmpty then none
        else (l.getLast?).map fun c => (t, c.volume * c.close)
    | none => none

/-- Comparator of the ranker's `volume_data.sort(key=lambda x: x[1],
reverse=True)`: `a` may come before `b` when its value is at least `b`'s. -/
def ranker_le (a b : String × ℚ) : Bool := decide (b.2 ≤ a.2)

/-- Embedding of `get_top_volume_tickers` (market_analyzer.py lines 323-364):
if the market snapshot retry fails, the empty list; otherwise collect the
per-ticker values, sort them descending by value — Python's `list.sort` is
stable, and a stable sort's output is uniquely determined, so the stable
`List.mergeSort` embeds it exactly — and return the first three tickers. -/
def get_top_volume_tickers (tickers : List String)
    (marketsProvider : Nat → FetchOutcome Unit)
    (daily : String → Nat → FetchOutcome (List Candle)) : List String :=
  match (retryFetch marketsProvider Option.isSome).value with
  | none => []
  | some _ =>
      (((ranker_volume_data tickers daily).mergeSort ranker_le).take 3).map
        Prod.fst

/-- The worked scenario of the specification: RSI 25, MACD bearish and
strengthening (line -2 below signal -1, histogram -1 below the previous
row's -1/2), MA5 90 < MA20 95 < MA60 100, price 100 strictly inside the
Bollinger bands [80, 120], %K 15 above %D 10, ADX 30 with -DI 30 above
+DI 10, OBV 5 below its 20-period mean 10, close 100 below both Ichimoku
spans 110 and 120, ROC -6, price at the lower channel 100. -/
def scenarioRow : AugRow where
  open_ := 100
  high := 105
  low := 95
  close := 100
  volume := 1000
  RSI := some 25
  MACD := some (-2)
  MACD_Signal := some (-1)
  MACD_Hist := some (-1)
  Stoch_K := some 15
  Stoch_D := some 10
  ADX := some 30
  DI_plus := some 10
  DI_minus := some 30
  OBV := some 5
  Force_Index := some 0
  Ichimoku_Conversion := some 0
  Ichimoku_Base := some 0
  Ichimoku_SpanA := some 110
  Ichimoku_SpanB := some 120
  MA5 := some 90
  MA20 := some 95
  MA60 := some 100
  MA120 := some 100
  BB_Middle := some 100
  BB_Upper := some 120
  BB_Lower := some 80
  ROC := some (-6)
  Upper_Channel := some 150
  Lower_Channel := some 100

/-- The scenario's full aggregator input (previous histogram -1/2, OBV
20-period mean 10, current price 100). -/
def scenarioInput : ScoreInput where
  latest := scenarioRow
  prevHist := some (-1 / 2)
  obv_ma_last := some 10
  current_price := 100

/-- An indicator row with a given volume and no defined indicator cells,
for exercising the volume-surge check on concrete frames. -/
def testRow (v : ℚ) : AugRow where
  open_ := 0
  high := 0
  low := 0
  close := 0
  volume := v
  RSI := none
  MACD := none
  MACD_Signal := none
  MACD_Hist := none
  Stoch_K := none
  Stoch_D := none
  ADX := none
  DI_plus := none
  DI_minus := none
  OBV := none
  Force_Index := none
  Ichimoku_Conversion := none
  Ichimoku_Base := none
  Ichimoku_SpanA := none
  Ichimoku_SpanB := none
  MA5 := none
  MA20 := none
  MA60 := none
  MA120 := none
  BB_Middle := none
  BB_Upper := none
  BB_Lower := none
  ROC := none
  Upper_Channel := none
  Lower_Channel := none

/-- A flat candle at price and volume `x`. -/
def testCandle (x : ℚ) : Candle where
  open_ := x
  high := x
  low := x
  close := x
  volume := x

/-- Indicator-library oracle whose every column is empty (so every derived
cell looked up from it is NaN): the simplest concrete instantiation for
witnesses. -/
def taZero : TaLib where
  rsi := fun _ => []
  macd := fun _ => []
  macd_signal := fun _ => []
  macd_diff := fun _ => []
  stoch := fun _ => []
  stoch_signal := fun _ => []
  adx := fun _ => []
  adx_pos := fun _ => []
  adx_neg := fun _ => []
  on_balance_volume := fun _ => []
  force_index := fun _ => []
  ichimoku_conversion := fun _ => []
  ichimoku_base := fun _ => []
  ichimoku_a := fun _ => []
  ichimoku_b := fun _ => []
  rolling_std := fun _ _ => []

/-- A price provider that always succeeds with price 100. -/
def ppSuccess : Nat → FetchOutcome ℚ := fun _ => .val (some 100)

/-- A price provider that raises on the first two attempts and succeeds with
price 42 on the third. -/
def ppThird : Nat → FetchOutcome ℚ := fun i =>
  if i = 0 then .exn else if i = 1 then .val none else .val (some 42)

/-- A price provider that always raises. -/
def ppDead : Nat → FetchOutcome ℚ := fun _ => .exn

/-- An OHLCV provider that always succeeds with sixty flat candles. -/
def opSixty : Nat → FetchOutcome (List Candle) := fun _ =>
  .val (some (List.replicate 60 (testCandle 1)))

/-- An OHLCV provider that always succeeds with thirty flat candles. -/
def opThirty : Nat → FetchOutcome (List Candle) := fun _ =>
  .val (some (List.replicate 30 (testCandle 1)))

/-- An OHLCV provider that always returns an empty frame. -/
def opEmpty : Nat → FetchOutcome (List Candle) := fun _ => .val (some [])

/-- A fresh analyzer state: no alerts, no previous volume, threshold 2.0, as
in `__init__`. -/
def stFresh : AnalyzerState where
  price_alerts := []
  last_volume := none
  volume_alert_threshold := 2

/-- The concrete `SignalResult` that `analyze_signals` produces from the
always-succeeding providers above and the empty-column oracle. -/
def c8res : SignalResult :=
  ((analyze_signals taZero ppSuccess opSixty stFresh "KRW-BTC").1).getD default

/-- A transient-failure predicate for the current-price fetch: the attempt
raised or returned `None`. -/
def priceFail (o : FetchOutcome ℚ) : Prop := o = .exn ∨ o = .val none

/-- A transient-failure predicate for the OHLCV fetch: the attempt raised,
returned `None`, or returned an empty frame. -/
def dfFail (o : FetchOutcome (List Candle)) : Prop :=
  o = .exn ∨ o = .val none ∨ o = .val (some [])

/-- Daily-frame provider for the ranker witness: candidate A is worth 4,
candidate B is worth 1 (volume × close of a flat candle). -/
def dailyW : String → Nat → FetchOutcome (List Candle) := fun t _ =>
  .val (some [testCandle (if t = "A" then 2 else 1)])

/-- Market-snapshot provider that succeeds immediately. -/
def mpW : Nat → FetchOutcome Unit := fun _ => .val (some ())

section

attribute [local semireducible] Rat.add Rat.mul Rat.sub Rat.inv

theorem stepRSI_score (inp : ScoreInput) (acc : ℤ × List String) :
    (stepRSI inp acc).1 = acc.1 + rsiContrib inp := by
  unfold stepRSI rsiContrib
  cases h1 : olt inp.latest.RSI (some 30) <;>
    cases h2 : ogt inp.latest.RSI (some 70) <;> simp [h1, h2] <;> omega

theorem stepMACD_score (inp : ScoreInput) (acc : ℤ × List String) :
    (stepMACD inp acc).1 = acc.1 + macdContrib inp := by
  unfold stepMACD macdContrib
  cases h1 : ogt inp.latest.MACD inp.latest.MACD_Signal <;>
    cases h2 : ogt inp.latest.MACD_Hist inp.prevHist <;>
    cases h3 : olt inp.latest.MACD_Hist inp.prevHist <;> simp [h1, h2, h3] <;> omega

theorem stepMA_score (inp : ScoreInput) (acc : ℤ × List String) :
    (stepMA inp acc).1 = acc.1 + maContrib inp := by
  unfold stepMA maContrib
  cases h1 : ogt inp.latest.MA5 inp.latest.MA20 && ogt inp.latest.MA20 inp.latest.MA60 <;>
    cases h2 : olt inp.latest.MA5 inp.latest.MA20 && olt inp.latest.MA20 inp.latest.MA60 <;>
    simp [h1, h2] <;> omega

theorem stepBB_score (inp : ScoreInput) (acc : ℤ × List String) :
    (stepBB inp acc).1 = acc.1 + bbContrib inp := by
  unfold stepBB bbContrib
  cases h1 : olt (some inp.current_price) inp.latest.BB_Lower <;>
    cases h2 : ogt (some inp.current_price) inp.latest.BB_Upper <;> simp [h1, h2] <;> omega

theorem stepStoch_score (inp : ScoreInput) (acc : ℤ × List String) :
    (stepStoch inp acc).1 = acc.1 + stochContrib inp := by
  unfold stepStoch stochContrib
  cases h1 : olt inp.latest.Stoch_K (some 20) && ogt inp.latest.Stoch_K inp.latest.Stoch_D <;>
    cases h2 : ogt inp.latest.Stoch_K (some 80) && olt inp.latest.Stoch_K inp.latest.Stoch_D <;>
    simp [h1, h2] <;> omega

theorem stepDMI_score (inp : ScoreInput) (acc : ℤ × List String) :
    (stepDMI inp acc).1 = acc.1 + dmiContrib inp := by
  unfold stepDMI dmiContrib
  cases h1 : ogt inp.latest.DI_plus inp.latest.DI_minus && ogt inp.latest.ADX (some 25) <;>
    cases h2 : ogt inp.latest.DI_minus inp.latest.DI_plus && ogt inp.latest.ADX (some 25) <;>
    simp [h1, h2] <;> omega

theorem stepOBV_score (inp : ScoreInput) (acc : ℤ × List String) :
    (stepOBV inp acc).1 = acc.1 + obvContrib inp := by
  unfold stepOBV obvContrib
  cases h1 : ogt inp.latest.OBV inp.obv_ma_last <;>
    cases h2 : olt inp.latest.OBV inp.obv_ma_last <;> simp [h1, h2] <;> omega

theorem stepIchimoku_score (inp : ScoreInput) (acc : ℤ × List String) :
    (stepIchimoku inp acc).1 = acc.1 + ichimokuContrib inp := by
  unfold stepIchimoku ichimokuContrib
  cases h1 : ogt (some inp.latest.close) inp.latest.Ichimoku_SpanA &&
      ogt (some inp.latest.close) inp.latest.Ichimoku_SpanB <;>
    cases h2 : olt (some inp.latest.close) inp.latest.Ichimoku_SpanA &&
      olt (some inp.latest.close) inp.latest.Ichimoku_SpanB <;> simp [h1, h2] <;> omega

theorem stepROC_score (inp : ScoreInput) (acc : ℤ × List String) :
    (stepROC inp acc).1 = acc.1 + rocContrib inp := by
  unfold stepROC rocContrib
  cases h1 : ogt inp.latest.ROC (some 5) <;>
    cases h2 : olt inp.latest.ROC (some (-5)) <;> simp [h1, h2] <;> omega

theorem stepChannel_score (inp : ScoreInput) (acc : ℤ × List String) :
    (stepChannel inp acc).1 = acc.1 + channelContrib inp := by
  unfold stepChannel channelContrib
  cases h1 : oge (some inp.current_price) inp.latest.Upper_Channel <;>
    cases h2 : ole (some inp.current_price) inp.latest.Lower_Channel <;> simp [h1, h2] <;> omega

theorem appStepRSI_score (inp : App.ScoreInput) (acc : ℤ × List String) :
    (App.stepRSI inp acc).1 = acc.1 + App.rsiContrib inp := by
  unfold App.stepRSI App.rsiContrib
  cases h1 : olt inp.latest.RSI (some 30) <;>
    cases h2 : ogt inp.latest.RSI (some 70) <;> simp [h1, h2] <;> omega

theorem appStepMACD_score (inp : App.ScoreInput) (acc : ℤ × List String) :
    (App.stepMACD inp acc).1 = acc.1 + App.macdContrib inp := by
  unfold App.stepMACD App.macdContrib
  cases h1 : ogt inp.latest.MACD inp.latest.MACD_Signal <;> simp [h1] <;> omega

theorem appStepMA_score (inp : App.ScoreInput) (acc : ℤ × List String) :
    (App.stepMA inp acc).1 = acc.1 + App.maContrib inp := by
  unfold App.stepMA App.maContrib
  cases h1 : ogt inp.latest.MA5 inp.latest.MA20 <;> simp [h1] <;> omega

/-- C1: for every valid aggregator input, the reported `signal_strength` is
the signed sum of the ten independent rule contributions (no
short-circuiting), and for the lighter app.py variant it is the sum of its
three rule contributions with RSI weighted ±2; on the specification's worked
scenario the full rule set scores -5. -/
theorem signal_strength_eq_sum_of_contribs :
    (∀ inp : ScoreInput, (signalSteps inp (0, [])).1 =
      rsiContrib inp + macdContrib inp + maContrib inp + bbContrib inp +
        stochContrib inp + dmiContrib inp + obvContrib inp +
        ichimokuContrib inp + rocContrib inp + channelContrib inp) ∧
    (∀ inp : App.ScoreInput, (App.signalSteps inp (0, [])).1 =
      App.rsiContrib inp + App.macdContrib inp + App.maContrib inp) ∧
    (signalSteps scenarioInput (0, [])).1 = -5 := by
  refine ⟨fun inp => ?_, fun inp => ?_, ?_⟩
  · simp only [signalSteps, stepChannel_score, stepROC_score, stepIchimoku_score,
      stepOBV_score, stepDMI_score, stepStoch_score, stepBB_score, stepMA_score,
      stepMACD_score, stepRSI_score]
    omega
  · simp only [App.signalSteps, appStepMA_score, appStepMACD_score, appStepRSI_score]
    omega
  · decide

theorem alertsFired_eq_filter (p : ℚ) (l : List (ℚ × String)) :
    alertsFired p l = l.filter (alertFires p) := by
  induction l with
  | nil => rfl
  | cons e rest ih =>
      simp only [alertsFired, List.filter_cons]
      cases h : alertFires p e <;> simp [h, ih]

theorem mem_of_mem_alertsFired {p : ℚ} {e : ℚ × String} {l : List (ℚ × String)}
    (h : e ∈ alertsFired p l) : e ∈ l ∧ alertFires p e = true := by
  rw [alertsFired_eq_filter] at h
  exact ⟨List.mem_of_mem_filter h, List.of_mem_filter h⟩

theorem mem_foldl_delKey {ks : List ℚ} {l : List (ℚ × String)} {e : ℚ × String}
    (h : e ∈ ks.foldl delKey l) : e ∈ l ∧ e.1 ∉ ks := by
  induction ks generalizing l with
  | nil => simpa using h
  | cons k ks ih =>
      obtain ⟨h1, h2⟩ := ih h
      refine ⟨List.mem_of_mem_filter h1, fun hm => ?_⟩
      have h4 := List.of_mem_filter h1
      rcases List.mem_cons.mp hm with hk | hm'
      · simp [hk] at h4
      · exact h2 hm'

theorem mem_foldl_delKey_of {ks : List ℚ} {l : List (ℚ × String)}
    {e : ℚ × String} (he : e ∈ l) (hk : e.1 ∉ ks) : e ∈ ks.foldl delKey l := by
  induction ks generalizing l with
  | nil => simpa using he
  | cons k ks ih =>
      refine ih (List.mem_filter.mpr ⟨he, ?_⟩) fun hm => hk (List.mem_cons_of_mem _ hm)
      have : ¬e.1 = k := fun hkk => hk (by simp [hkk])
      simpa using this

theorem alertFires_iff (p : ℚ) (e : ℚ × String) :
    alertFires p e = true ↔ (e.2 = "above" ∧ e.1 < p) ∨ (e.2 = "below" ∧ p < e.1) := by
  unfold alertFires
  by_cases h1 : e.2 = "above" <;> by_cases h2 : e.2 = "below" <;>
    simp [h1, h2]

/-- C2: the entries fired by one `check_price_alerts` call are exactly the
qualifying registry entries (above-direction when the price strictly exceeds
the target, below-direction when it is strictly lower), reported in
registration order; each fired entry is removed from the registry in the
same call, and no subsequent check at any price ever fires it again. -/
theorem alert_firing_at_most_once (reg : List (ℚ × String)) (p : ℚ) :
    (check_price_alerts reg p).1 = reg.filter (alertFires p) ∧
    (∀ e, e ∈ (check_price_alerts reg p).1 ↔
      e ∈ reg ∧ ((e.2 = "above" ∧ e.1 < p) ∨ (e.2 = "below" ∧ p < e.1))) ∧
    ∀ e ∈ (check_price_alerts reg p).1,
      e ∉ (check_price_alerts reg p).2 ∧
      ∀ p', e ∉ (check_price_alerts (check_price_alerts reg p).2 p').1 := by
  have hfst : (check_price_alerts reg p).1 = alertsFired p reg := rfl
  have hsnd : (check_price_alerts reg p).2 =
      ((alertsFired p reg).map Prod.fst).foldl delKey reg := rfl
  refine ⟨hfst.trans (alertsFired_eq_filter p reg), fun e => ?_, fun e he => ?_⟩
  · rw [hfst, alertsFired_eq_filter, List.mem_filter, alertFires_iff]
  · have hmem := mem_of_mem_alertsFired (hfst ▸ he)
    have hkey : e.1 ∈ (alertsFired p reg).map Prod.fst :=
      List.mem_map.mpr ⟨e, hfst ▸ he, rfl⟩
    have hout : e ∉ (check_price_alerts reg p).2 := by
      rw [hsnd]
      intro hmem'
      exact (mem_foldl_delKey hmem').2 hkey
    refine ⟨hout, fun p' hmem' => ?_⟩
    exact hout (mem_of_mem_alertsFired hmem').1

/-- C2 witness: a single above-100 alert fired at price 101 is gone, and the
subsequent check at the more extreme price 150 does not fire it again. -/
theorem alert_firing_at_most_once_witness :
    ((100 : ℚ), "above") ∉
      (check_price_alerts (check_price_alerts [((100 : ℚ), "above")] 101).2 150).1 :=
  (((alert_firing_at_most_once [((100 : ℚ), "above")] 101).2.2
    ((100 : ℚ), "above") (by decide)).2) 150

theorem alertFires_of_eq {p : ℚ} {e : ℚ × String} (h : e.1 = p) :
    alertFires p e = false := by
  unfold alertFires
  simp [h]

/-- C9: an alert whose target price equals the current price fires in
neither direction (both comparisons are strict): the entry is not reported,
it survives the call, and a registry consisting only of such entries is
returned completely unchanged with nothing fired. -/
theorem alert_equality_boundary (reg : List (ℚ × String)) (p : ℚ) :
    (∀ e ∈ reg, e.1 = p → e ∉ (check_price_alerts reg p).1) ∧
    (∀ e ∈ reg, e.1 = p → e ∈ (check_price_alerts reg p).2) ∧
    ((∀ e ∈ reg, e.1 = p) → check_price_alerts reg p = ([], reg)) := by
  have hfst : (check_price_alerts reg p).1 = alertsFired p reg := rfl
  refine ⟨fun e _ hep hin => ?_, fun e he hep => ?_, fun hall => ?_⟩
  · have := (mem_of_mem_alertsFired (hfst ▸ hin)).2
    rw [alertFires_of_eq hep] at this
    exact Bool.false_ne_true this
  · show e ∈ ((alertsFired p reg).map Prod.fst).foldl delKey reg
    refine mem_foldl_delKey_of he fun hk => ?_
    obtain ⟨e', he', hfe⟩ := List.mem_map.mp hk
    have h2 := (mem_of_mem_alertsFired he').2
    have h3 : e'.1 = p := hfe.trans hep
    rw [alertFires_of_eq h3] at h2
    exact Bool.false_ne_true h2
  · have hnil : alertsFired p reg = [] := by
      rw [alertsFired_eq_filter, List.filter_eq_nil_iff]
      intro e he
      simp [alertFires_of_eq (hall e he)]
    show (alertsFired p reg, ((alertsFired p reg).map Prod.fst).foldl delKey reg) = ([], reg)
    rw [hnil]
    rfl

/-- C9 witness: a registry holding one above-alert at exactly the current
price 100 is untouched and nothing fires. -/
theorem alert_equality_boundary_witness :
    check_price_alerts [((100 : ℚ), "above")] 100 = ([], [((100 : ℚ), "above")]) :=
  (alert_equality_boundary [((100 : ℚ), "above")] 100).2.2 (by decide)

/-- C5 counterexample: on a one-candle frame the guard `len(df) < 2` returns
early, so the stored previous volume 5 is NOT updated to the latest candle's
volume 7 — the claim's "always updated" fails for series of fewer than two
candles. -/
theorem volume_surge_short_frame_counterexample :
    (check_volume_surge (some 5) 2 (some [testRow 7])).last_volume ≠
      some ((testRow 7).volume) := by decide

/-- C5 (amended): on every call with a present frame of at least two rows,
the stored volume is updated to the latest row's volume regardless of the
outcome, a first observation (no stored volume) never signals a surge, and
with a stored nonzero previous volume a surge is signalled exactly when
latest/previous strictly exceeds the threshold. -/
theorem volume_surge_check_contract (lastVol : Option ℚ) (thr : ℚ)
    (rows : List AugRow) (h : 2 ≤ rows.length) :
    (check_volume_surge lastVol thr (some rows)).last_volume =
      some (((rows.getLast?).map AugRow.volume).getD 0) ∧
    (lastVol = none → (check_volume_surge lastVol thr (some rows)).surged = false) ∧
    (∀ prev : ℚ, lastVol = some prev → prev ≠ 0 →
      ((check_volume_surge lastVol thr (some rows)).surged = true ↔
        thr < (((rows.getLast?).map AugRow.volume).getD 0) / prev)) := by
  have hlen : ¬rows.length < 2 := by omega
  rcases lastVol with _ | prev
  · refine ⟨?_, fun _ => ?_, fun prev hp _ => absurd hp (by simp)⟩ <;>
      simp [check_volume_surge, hlen]
  · refine ⟨?_, fun hn => ?_, fun prev' hp _ => ?_⟩
    · simp [check_volume_surge, hlen]
    · exact absurd hn (by simp)
    · obtain rfl : prev = prev' := by simpa using hp
      simp [check_volume_surge, hlen]

/-- C5 witness: with threshold 2 and volumes 100 then 250, the state becomes
250 and the surge fires (ratio 5/2); from a fresh state nothing fires. -/
theorem volume_surge_check_contract_witness :
    (check_volume_surge (some 100) 2 (some [testRow 100, testRow 250])).last_volume
        = some 250 ∧
    (check_volume_surge none 2 (some [testRow 100, testRow 250])).surged = false ∧
    (check_volume_surge (some 100) 2 (some [testRow 100, testRow 250])).surged = true := by
  refine ⟨?_, ?_, ?_⟩
  · rw [(volume_surge_check_contract (some 100) 2 [testRow 100, testRow 250] (by decide)).1]
    decide
  · exact (volume_surge_check_contract none 2 [testRow 100, testRow 250]
      (by decide)).2.1 rfl
  · exact ((volume_surge_check_contract (some 100) 2 [testRow 100, testRow 250]
      (by decide)).2.2 100 rfl (by decide)).mpr (by decide)

/-- C10: the division `current_volume / self.last_volume` has no zero guard:
a frame whose latest volume is 0 (reachable through the public check) stores
0 as the previous volume, and the next call executes the division with
divisor 0. -/
theorem volume_surge_division_by_zero_reachable :
    (check_volume_surge none 2 (some [testRow 5, testRow 0])).last_volume = some 0 ∧
    (check_volume_surge
        ((check_volume_surge none 2 (some [testRow 5, testRow 0])).last_volume) 2
        (some [testRow 0, testRow 100])).divisor = some 0 := by decide

/-- C3 counterexample: a non-empty series below the claimed minimum window
(30 < 60 candles for market_analyzer.py, 5 < 20 for app.py) still yields an
indicator-augmented frame from `calculate_indicators`, not "no result" —
the minimum-length check does not live in the computation itself. -/
theorem calculate_indicators_short_series_counterexample :
    calculate_indicators_post taZero (some (List.replicate 30 (testCandle 1))) ≠ none ∧
    (List.replicate 30 (testCandle 1)).length < 60 ∧
    App.calculate_indicators taZero (.val (some (List.replicate 5 (testCandle 1)))) ≠ none ∧
    (List.replicate 5 (testCandle 1)).length < 20 := by
  refine ⟨?_, by decide, ?_, by decide⟩
  · intro h
    rw [show calculate_indicators_post taZero (some (List.replicate 30 (testCandle 1)))
        = some (augment taZero (List.replicate 30 (testCandle 1))) from rfl] at h
    exact Option.some_ne_none _ h
  · intro h
    rw [show App.calculate_indicators taZero (.val (some (List.replicate 5 (testCandle 1))))
        = some (App.augment taZero (List.replicate 5 (testCandle 1))) from rfl] at h
    exact Option.some_ne_none _ h

/-- C3 (amended): the indicator computation returns "no result" exactly when
the fetched series is absent or empty (for the app variant: the single fetch
raised, returned `None`, or returned an empty frame); the 60- / 20-candle
minimum is enforced by the signal-analysis caller, which returns "no result"
for every shorter computed frame. -/
theorem calculate_indicators_none_iff (ta : TaLib) :
    (∀ df : Option (List Candle),
      calculate_indicators_post ta df = none ↔ df = none ∨ df = some []) ∧
    (∀ fo : FetchOutcome (List Candle),
      App.calculate_indicators ta fo = none ↔
        fo = .exn ∨ fo = .val none ∨ fo = .val (some [])) ∧
    (∀ (pp : Nat → FetchOutcome ℚ) (op : Nat → FetchOutcome (List Candle))
        (st : AnalyzerState) (tick : String) (df : List AugRow),
      calculate_indicators ta op = some df → df.length < 60 →
      analyze_signals ta pp op st tick = (none, st)) ∧
    (∀ (po : FetchOutcome ℚ) (oo : FetchOutcome (List Candle)) (ls : ℤ)
        (tick : String) (df : List App.AugRow),
      App.calculate_indicators ta oo = some df → df.length < 20 →
      App.analyze_signals ta po oo ls tick = (none, ls)) := by
  refine ⟨fun df => ?_, fun fo => ?_, ?_, ?_⟩
  · rcases df with _ | (_ | ⟨c, s⟩) <;> simp [calculate_indicators_post]
  · rcases fo with _ | (_ | (_ | ⟨c, s⟩)) <;> simp [App.calculate_indicators]
  · intro pp op st tick df h h60
    unfold analyze_signals
    cases hp : get_current_price pp with
    | none => rfl
    | some p => rw [h]; simp [h60]
  · intro po oo ls tick df h h20
    unfold App.analyze_signals
    cases hp : App.get_current_price po with
    | none => rfl
    | some p => rw [h]; simp [h20]

/-- C3 witness: thirty fetched candles produce a computed frame yet the
analyzer rejects the cycle, and likewise five candles for the app variant. -/
theorem calculate_indicators_none_iff_witness :
    analyze_signals taZero ppSuccess opThirty stFresh "KRW-BTC" = (none, stFresh) ∧
    App.analyze_signals taZero (.val (some 100))
      (.val (some (List.replicate 5 (testCandle 1)))) 0 "KRW-BTC" = (none, 0) := by
  constructor
  · refine (calculate_indicators_none_iff taZero).2.2.1 ppSuccess opThirty stFresh
      "KRW-BTC" (augment taZero (List.replicate 30 (testCandle 1))) rfl ?_
    simp [augment]
  · refine (calculate_indicators_none_iff taZero).2.2.2 (.val (some 100))
      (.val (some (List.replicate 5 (testCandle 1)))) 0
      "KRW-BTC" (App.augment taZero (List.replicate 5 (testCandle 1))) rfl ?_
    simp [App.augment]

theorem retryLoop_attempts_le (prov : Nat → FetchOutcome α) (good : Option α → Bool) :
    ∀ (fuel i : Nat) (acc : Option α), (retryLoop prov good fuel i acc).attempts ≤ fuel := by
  intro fuel
  induction fuel with
  | zero => intro i acc; simp [retryLoop]
  | succ n ih =>
      intro i acc
      unfold retryLoop
      cases prov i with
      | exn => simpa using ih (i + 1) acc
      | val v =>
          by_cases h : good v
          · simp [h]
          · simpa [h] using ih (i + 1) v

/-- C4: every fetch makes at most 3 provider attempts; a transient failure is
an exception or an absent result (for OHLCV also an empty frame); two
failures followed by a third-attempt success yield the successful result
(for OHLCV, the frame whose indicators are then computed); and when all
three attempts fail the operation returns "no result" — by construction the
embedding is a total function, so no exception escapes to the caller. -/
theorem fetch_retry_policy :
    (∀ pp : Nat → FetchOutcome ℚ, (retryFetch pp goodPrice).attempts ≤ 3) ∧
    (∀ op : Nat → FetchOutcome (List Candle), (retryFetch op goodDf).attempts ≤ 3) ∧
    (∀ (pp : Nat → FetchOutcome ℚ) (x : ℚ), priceFail (pp 0) → priceFail (pp 1) →
      pp 2 = .val (some x) → get_current_price pp = some x) ∧
    (∀ (ta : TaLib) (op : Nat → FetchOutcome (List Candle)) (l : List Candle),
      dfFail (op 0) → dfFail (op 1) → op 2 = .val (some l) → l ≠ [] →
      calculate_indicators ta op = some (augment ta l)) ∧
    (∀ pp : Nat → FetchOutcome ℚ, priceFail (pp 0) → priceFail (pp 1) →
      priceFail (pp 2) → get_current_price pp = none) ∧
    (∀ (ta : TaLib) (op : Nat → FetchOutcome (List Candle)),
      dfFail (op 0) → dfFail (op 1) → dfFail (op 2) →
      calculate_indicators ta op = none) := by
  refine ⟨fun pp => retryLoop_attempts_le pp goodPrice 3 0 none,
    fun op => retryLoop_attempts_le op goodDf 3 0 none,
    fun pp x h0 h1 h2 => ?_, fun ta op l h0 h1 h2 hl => ?_,
    fun pp h0 h1 h2 => ?_, fun ta op h0 h1 h2 => ?_⟩
  · rcases h0 with h0 | h0 <;> rcases h1 with h1 | h1 <;>
      simp [get_current_price, retryFetch, retryLoop, goodPrice, h0, h1, h2]
  · have hne : l.isEmpty = false := by simpa using hl
    rcases h0 with h0 | h0 | h0 <;> rcases h1 with h1 | h1 | h1 <;>
      simp [calculate_indicators, calculate_indicators_post, fetch_ohlcv,
        retryFetch, retryLoop, goodDf, h0, h1, h2, hne]
  · rcases h0 with h0 | h0 <;> rcases h1 with h1 | h1 <;> rcases h2 with h2 | h2 <;>
      simp [get_current_price, retryFetch, retryLoop, goodPrice, h0, h1, h2]
  · rcases h0 with h0 | h0 | h0 <;> rcases h1 with h1 | h1 | h1 <;>
      rcases h2 with h2 | h2 | h2 <;>
      simp [calculate_indicators, calculate_indicators_post, fetch_ohlcv,
        retryFetch, retryLoop, goodDf, h0, h1, h2]

/-- C4 witness: a price provider that raises, then returns `None`, then
succeeds with 42, delivers 42; a provider that always raises delivers "no
result"; and the attempt counters stay within 3. -/
theorem fetch_retry_policy_witness :
    get_current_price ppThird = some 42 ∧
    get_current_price ppDead = none ∧
    (retryFetch ppThird goodPrice).attempts ≤ 3 ∧
    calculate_indicators taZero opEmpty = none := by
  refine ⟨?_, ?_, fetch_retry_policy.1 ppThird, ?_⟩
  · exact fetch_retry_policy.2.2.1 ppThird 42 (Or.inl rfl) (Or.inr rfl) rfl
  · exact fetch_retry_policy.2.2.2.2.1 ppDead (Or.inl rfl) (Or.inl rfl) (Or.inl rfl)
  · exact fetch_retry_policy.2.2.2.2.2 taZero opEmpty (Or.inr (Or.inr rfl))
      (Or.inr (Or.inr rfl)) (Or.inr (Or.inr rfl))

/-- C7: when the current price is absent, or the indicator frame is absent
or shorter than the minimum window (60 rows; 20 for the app variant), the
signal analysis produces "no result" with the per-asset state untouched —
never a result with a degraded or partial score. -/
theorem analyze_signals_guards (ta : TaLib) (pp : Nat → FetchOutcome ℚ)
    (op : Nat → FetchOutcome (List Candle)) (st : AnalyzerState) (tick : String) :
    (get_current_price pp = none → analyze_signals ta pp op st tick = (none, st)) ∧
    (calculate_indicators ta op = none → analyze_signals ta pp op st tick = (none, st)) ∧
    (∀ df : List AugRow, calculate_indicators ta op = some df → df.length < 60 →
      analyze_signals ta pp op st tick = (none, st)) ∧
    (∀ (po : FetchOutcome ℚ) (oo : FetchOutcome (List Candle)) (ls : ℤ),
      App.get_current_price po = none →
      App.analyze_signals ta po oo ls tick = (none, ls)) ∧
    (∀ (po : FetchOutcome ℚ) (oo : FetchOutcome (List Candle)) (ls : ℤ),
      App.calculate_indicators ta oo = none →
      App.analyze_signals ta po oo ls tick = (none, ls)) ∧
    (∀ (po : FetchOutcome ℚ) (oo : FetchOutcome (List Candle)) (ls : ℤ)
        (df : List App.AugRow),
      App.calculate_indicators ta oo = some df → df.length < 20 →
      App.analyze_signals ta po oo ls tick = (none, ls)) := by
  refine ⟨fun h => ?_, fun h => ?_, fun df h h60 => ?_, fun po oo ls h => ?_,
    fun po oo ls h => ?_, fun po oo ls df h h20 => ?_⟩
  · simp [analyze_signals, h]
  · cases hp : get_current_price pp with
    | none => simp [analyze_signals, hp]
    | some p => simp [analyze_signals, hp, h]
  · unfold analyze_signals
    cases hp : get_current_price pp with
    | none => rfl
    | some p => rw [h]; simp [h60]
  · simp [App.analyze_signals, h]
  · cases hp : App.get_current_price po with
    | none => simp [App.analyze_signals, hp]
    | some p => simp [App.analyze_signals, hp, h]
  · unfold App.analyze_signals
    cases hp : App.get_current_price po with
    | none => rfl
    | some p => rw [h]; simp [h20]

/-- C7 witness: a dead price provider, an empty-frame provider, and an app
fetch that raises, each produce "no result" with the state unchanged. -/
theorem analyze_signals_guards_witness :
    analyze_signals taZero ppDead opSixty stFresh "KRW-BTC" = (none, stFresh) ∧
    analyze_signals taZero ppSuccess opEmpty stFresh "KRW-BTC" = (none, stFresh) ∧
    App.analyze_signals taZero .exn (.val (some [testCandle 1])) 0 "KRW-BTC" = (none, 0) := by
  refine ⟨(analyze_signals_guards taZero ppDead opSixty stFresh "KRW-BTC").1 rfl,
    (analyze_signals_guards taZero ppSuccess opEmpty stFresh "KRW-BTC").2.1 rfl,
    (analyze_signals_guards taZero ppSuccess opEmpty stFresh "KRW-BTC").2.2.2.1
      .exn (.val (some [testCandle 1])) 0 rfl⟩

/-- C8: every result dict actually produced by `analyze_signals` leaves the
`OBV_MA` key unpopulated, so the reporting path's comparison
`result['OBV'] > result.get('OBV_MA', 0)` always degenerates to comparing
OBV against the default 0 instead of the 20-period OBV moving average used
during signal evaluation. -/
theorem obv_report_reads_missing_key (ta : TaLib) (pp : Nat → FetchOutcome ℚ)
    (op : Nat → FetchOutcome (List Candle)) (st : AnalyzerState) (tick : String)
    (r : SignalResult) (h : (analyze_signals ta pp op st tick).1 = some r) :
    r.OBV_MA = none ∧ obvReportBullish r = ogt r.OBV (some 0) := by
  cases hp : get_current_price pp with
  | none => simp [analyze_signals, hp] at h
  | some p =>
      cases hc : calculate_indicators ta op with
      | none => simp [analyze_signals, hp, hc] at h
      | some df =>
          by_cases h60 : df.length < 60
          · simp [analyze_signals, hp, hc, h60] at h
          · simp only [analyze_signals, hp, hc, h60, if_false, Option.some.injEq,
              reduceCtorEq, ite_false] at h
            subst h
            exact ⟨rfl, rfl⟩

/-- C8 witness: the concrete result computed from the always-succeeding
providers has no `OBV_MA` value, and its report comparison is OBV against
zero. -/
theorem obv_report_reads_missing_key_witness :
    c8res.OBV_MA = none ∧ obvReportBullish c8res = ogt c8res.OBV (some 0) :=
  obv_report_reads_missing_key taZero ppSuccess opSixty stFresh "KRW-BTC" c8res rfl

theorem ranker_le_trans (a b c : String × ℚ) (h1 : ranker_le a b = true)
    (h2 : ranker_le b c = true) : ranker_le a c = true := by
  simp [ranker_le] at h1 h2 ⊢
  exact le_trans h2 h1

theorem ranker_le_total (a b : String × ℚ) : (ranker_le a b || ranker_le b a) = true := by
  simpa [ranker_le] using le_total b.2 a.2

theorem pairwise_ranker_le_of_const {v : ℚ} :
    ∀ l : List (String × ℚ), (∀ x ∈ l, x.2 = v) →
      l.Pairwise (fun a b => ranker_le a b = true) := by
  intro l
  induction l with
  | nil => intro _; exact List.Pairwise.nil
  | cons a l ih =>
      intro h
      refine List.Pairwise.cons (fun b hb => ?_)
        (ih fun x hx => h x (List.mem_cons_of_mem _ hx))
      have ha := h a (List.mem_cons_self a l)
      have hb' := h b (List.mem_cons_of_mem _ hb)
      simp [ranker_le, ha, hb']

theorem mergeSort_filter_key (vd : List (String × ℚ)) (v : ℚ) :
    (vd.mergeSort ranker_le).filter (fun e => e.2 == v) =
      vd.filter (fun e => e.2 == v) := by
  set p : String × ℚ → Bool := fun e => e.2 == v with hp
  have hallp : ∀ x ∈ vd.filter p, x.2 = v := fun x hx => by
    simpa [hp] using List.of_mem_filter hx
  have hsub : (vd.filter p).Sublist (vd.mergeSort ranker_le) :=
    List.sublist_mergeSort ranker_le_trans ranker_le_total
      (pairwise_ranker_le_of_const _ hallp) (List.filter_sublist vd)
  have hself : (vd.filter p).filter p = vd.filter p :=
    List.filter_eq_self.mpr fun a ha => by simpa [hp] using hallp a ha
  have h4 : (vd.filter p).Sublist ((vd.mergeSort ranker_le).filter p) :=
    hself ▸ hsub.filter p
  have h5 : ((vd.mergeSort ranker_le).filter p).length = (vd.filter p).length :=
    ((List.mergeSort_perm vd ranker_le).filter p).length_eq
  exact (h4.eq_of_length h5.symm).symm

/-- C6: the ranker returns at most 3 identifiers and, when the market
snapshot is available, exactly the first three of the stable descending
sort of the fetched (ticker, close×volume) pairs; the sorted pairs are
descending by value; every returned ticker has a successfully-fetched
non-empty daily frame (failed candidates are absent, not zero-valued); and
candidates with equal value keep their relative order from the provider's
listing. -/
theorem ranker_contract (tickers : List String) (mp : Nat → FetchOutcome Unit)
    (daily : String → Nat → FetchOutcome (List Candle)) :
    (get_top_volume_tickers tickers mp daily).length ≤ 3 ∧
    ((ranker_volume_data tickers daily).mergeSort ranker_le).Pairwise
      (fun a b => b.2 ≤ a.2) ∧
    (∀ t ∈ get_top_volume_tickers tickers mp daily,
      ∃ v : ℚ, (t, v) ∈ ranker_volume_data tickers daily) ∧
    (∀ t ∈ get_top_volume_tickers tickers mp daily,
      ∃ l : List Candle, (retryFetch (daily t) goodDf).value = some l ∧ l ≠ []) ∧
    (∀ v : ℚ,
      ((ranker_volume_data tickers daily).mergeSort ranker_le).filter
          (fun e => e.2 == v) =
        (ranker_volume_data tickers daily).filter (fun e => e.2 == v)) := by
  have hmem : ∀ t ∈ get_top_volume_tickers tickers mp daily,
      ∃ v : ℚ, (t, v) ∈ ranker_volume_data tickers daily := by
    intro t ht
    unfold get_top_volume_tickers at ht
    cases hm : (retryFetch mp Option.isSome).value with
    | none => rw [hm] at ht; simp at ht
    | some m =>
        rw [hm] at ht
        simp only [List.mem_map] at ht
        obtain ⟨e, he, rfl⟩ := ht
        have he2 : e ∈ (ranker_volume_data tickers daily).mergeSort ranker_le :=
          List.mem_of_mem_take he
        have he3 : e ∈ ranker_volume_data tickers daily :=
          List.mem_mergeSort.mp he2
        exact ⟨e.2, by simpa using he3⟩
  refine ⟨?_, ?_, hmem, fun t ht => ?_, fun v => mergeSort_filter_key _ v⟩
  · unfold get_top_volume_tickers
    cases hm : (retryFetch mp Option.isSome).value with
    | none => simp
    | some m =>
        simp only [List.length_map, List.length_take]
        omega
  · exact (List.sorted_mergeSort ranker_le_trans ranker_le_total
      (ranker_volume_data tickers daily)).imp fun h => by simpa [ranker_le] using h
  · obtain ⟨v, hv⟩ := hmem t ht
    unfold ranker_volume_data at hv
    obtain ⟨a, _, hf⟩ := List.mem_filterMap.mp hv
    cases hfv : (retryFetch (daily a) goodDf).value with
    | none => rw [hfv] at hf; simp at hf
    | some l =>
        rw [hfv] at hf
        cases hle : l.isEmpty with
        | true => simp [hle] at hf
        | false =>
            simp only [hle, Bool.false_eq_true, if_false, Option.map_eq_some',
              Prod.mk.injEq] at hf
            obtain ⟨c, hgl, ha, hvv⟩ := hf
            subst ha
            refine ⟨l, hfv, fun hnil => ?_⟩
            rw [hnil] at hle
            simp at hle

/-- C6 witness: with candidates A (daily value 4) and B (daily value 1) the
ranker returns ["A", "B"], and the lower-ranked B indeed has a fetched value
pair present in the candidate list. -/
theorem ranker_contract_witness :
    ∃ v : ℚ, ("B", v) ∈ ranker_volume_data ["A", "B"] dailyW := by
  have hvd : ranker_volume_data ["A", "B"] dailyW = [("A", 4), ("B", 1)] := by decide
  have hs : ([("A", (4 : ℚ)), ("B", 1)].mergeSort ranker_le) = [("A", 4), ("B", 1)] :=
    List.mergeSort_of_sorted (by decide)
  have hread : get_top_volume_tickers ["A", "B"] mpW dailyW =
      ((((ranker_volume_data ["A", "B"] dailyW).mergeSort ranker_le).take 3).map
        Prod.fst) := rfl
  refine (ranker_contract ["A", "B"] mpW dailyW).2.2.1 "B" ?_
  rw [hread, hvd, hs]
  decide

end

end CryptoAnalyzer
